import Mathlib

/-!
Verification of the scrapy-mongodb pipeline (`scrapy_mongodb.py`).

The file shallowly embeds the pipeline: Python dicts keyed by record-type
names become association lists (`List (String × α)`), Python runtime errors
become an explicit `PyErr` value threaded through `Except`, and the calls the
pipeline makes to its collaborators (the MongoDB driver and the crawler
engine) become `Event` values collected in order of occurrence.  The store's
only modelled behaviour is whether an insert raises `DuplicateKeyError`,
supplied as a boolean oracle argument.
-/

set_option autoImplicit false

namespace ScrapyMongo

/-- Python exceptions raised by the pipeline code, by kind and payload. -/
inductive PyErr
  | keyErr (k : String)
  | nameErr (n : String)
  | typeErr (msg : String)
  | valueErr (msg : String)
  | synErr (msg : String)
  deriving DecidableEq, Repr

/-- A serialized record, i.e. the result of
`dict(self._get_serialized_fields(item))` (line 199): an ordered mapping from
field names to (string-modelled) field values. -/
abbrev Item := List (String × String)

/-- The `unique_key` entry of a collection config: a single field name or a
list of field names (`None` is modelled by wrapping in `Option`). -/
inductive UniqueKey
  | single (field : String)
  | fieldList (l : List String)
  deriving DecidableEq, Repr

/-- One entry of `config['collection']` (source lines 57-65): the per-type
routing configuration dict with its five keys. -/
structure CollEntry where
  name : String
  unique_key : Option UniqueKey
  buffer : Option Int
  append_timestamp : Bool
  stop_on_duplicate : Int
  deriving DecidableEq, Repr

/-- The pipeline's `config` dict (source lines 51-66).  A routing-table value
of `none` models a present-but-falsy entry (Python `None`), which the source
distinguishes from an absent key. -/
structure Config where
  uri : String
  fsync : Bool
  write_concern : Int
  database : String
  replica_set : Option String
  collection : List (String × Option CollEntry)
  deriving DecidableEq, Repr

/-- The default collection entry (source lines 58-64). -/
def defaultEntry : CollEntry :=
  { name := "items"
    unique_key := none
    buffer := none
    append_timestamp := false
    stop_on_duplicate := 0 }

/-- The default options (source lines 51-66). -/
def defaultConfig : Config :=
  { uri := "mongodb://localhost:27017"
    fsync := false
    write_concern := 0
    database := "scrapy-mongodb"
    replica_set := none
    collection := [("default", some defaultEntry)] }

/-- First-match lookup in an association list, modelling Python dict access
(`m[k]` succeeds iff the key is present). -/
def mapLookup {α : Type} : List (String × α) → String → Option α
  | [], _ => none
  | (k', v) :: rest, k => if k' = k then some v else mapLookup rest k

/-- Python dict assignment `m[k] = v`: overwrite in place when the key is
present, append otherwise. -/
def mapSet {α : Type} : List (String × α) → String → α → List (String × α)
  | [], k, v => [(k, v)]
  | (k', v') :: rest, k, v =>
      if k' = k then (k, v) :: rest else (k', v') :: mapSet rest k v

/-- The pipeline's per-type mutable state: the `current_item`, `item_buffer`
and `duplicate_key_count` dicts (source lines 69-73, class attributes that
start empty) and the `stop_on_duplicate` / `buffer_settings` dicts built by
`open_spider` (lines 102-103). -/
structure PipeState where
  current_item : List (String × Int)
  item_buffer : List (String × List Item)
  duplicate_key_count : List (String × Int)
  stop_on_duplicate : List (String × Int)
  buffer_settings : List (String × Int)
  deriving DecidableEq, Repr

/-- The pipeline's state at class definition time: every dict empty. -/
def initState : PipeState :=
  { current_item := []
    item_buffer := []
    duplicate_key_count := []
    stop_on_duplicate := []
    buffer_settings := [] }

/-- pymongo read preferences used by the source. -/
inductive ReadPref
  | primary
  | primaryPreferred
  deriving DecidableEq, Repr

/-- Observable calls the pipeline makes to its collaborators, in order:
the two connection constructors of `open_spider` (lines 85-97) with exactly
the keyword arguments the source passes, `ensure_index` (line 115), the
store's `insert` (line 252), and `engine.close_spider` (line 263). -/
inductive Event
  | replicaConn (uri : String) (replicaSet : String) (w : Int) (fsync : Bool)
      (pref : ReadPref)
  | standaloneConn (uri : String) (fsync : Bool) (pref : ReadPref)
  | ensureIndex (itype : String) (key : UniqueKey)
  | insertCall (itype : String) (items : List Item)
  | closeSpiderCall (reason : String)
  deriving DecidableEq, Repr

/-- The argument shape `insert_item` dispatches on (`isinstance(item, list)`,
line 244): a single record dict or a list of record dicts. -/
inductive PyItem
  | single (i : Item)
  | batch (l : List Item)
  deriving DecidableEq, Repr

/-- Values a Scrapy settings object can hold, as far as the source reads
them: strings, ints, booleans, and the `MONGODB_COLLECTION` routing table. -/
inductive SettingVal
  | str (s : String)
  | int (n : Int)
  | bool (b : Bool)
  | table (t : List (String × Option CollEntry))
  deriving DecidableEq, Repr

/-- A Scrapy settings object; `settings[key]` yields `None` for a missing
key, modelled by `Option.none` from `getSetting`. -/
abbrev Settings := List (String × SettingVal)

/-- Reading `self.settings[key]` (missing keys read as `None`). -/
def getSetting (s : Settings) (k : String) : Option SettingVal :=
  mapLookup s k

/-- Source `not_set` (lines 36-45): true iff the value is `None` or empty. -/
def not_set (v : Option SettingVal) : Bool :=
  match v with
  | none => true
  | some (.str s) => s = ""
  | some _ => false

/-- Python `str(v)` for the setting values, used by format spec `''`. -/
def valToStr : SettingVal → String
  | .str s => s
  | .int n => toString n
  | .bool b => if b then "True" else "False"
  | .table _ => "dict"

/-- One replacement field of Python's `str.format`: `format(v, spec)`.
Spec `''` is `str(v)` and always succeeds; the only other presentation types
modelled are `'s'` (strings) and `'d'` (ints/bools); every other code —
in particular the `'i'` the source writes in `'mongodb://{0}:{1:i}'`
(line 158) — raises `ValueError: Unknown format code`.  (The numeric codes
`b`, `o`, `x`, ... are valid in Python but unused by the source and left
unmodelled.) -/
def pyFormatField (spec : String) (v : SettingVal) : Except PyErr String :=
  if spec = "" then Except.ok (valToStr v)
  else
    match v with
    | .str s =>
        if spec = "s" then Except.ok s
        else Except.error (.valueErr "Unknown format code for str")
    | .int n =>
        if spec = "d" then Except.ok (toString n)
        else Except.error (.valueErr "Unknown format code for int")
    | .bool b =>
        if spec = "d" then Except.ok (toString (if b then (1 : Int) else 0))
        else Except.error (.valueErr "Unknown format code for int")
    | .table _ => Except.error (.typeErr "unsupported format string passed to dict")

/-- Option `('uri', 'MONGODB_URI')` of the `configure` options loop. -/
def applyOptUri (stg : Settings) (c : Config) : Config :=
  match getSetting stg "MONGODB_URI" with
  | some (.str s) => if s = "" then c else { c with uri := s }
  | _ => c

/-- Option `('fsync', 'MONGODB_FSYNC')` of the options loop. -/
def applyOptFsync (stg : Settings) (c : Config) : Config :=
  match getSetting stg "MONGODB_FSYNC" with
  | some (.bool b) => { c with fsync := b }
  | _ => c

/-- Option `('write_concern', 'MONGODB_REPLICA_SET_W')` of the options loop. -/
def applyOptW (stg : Settings) (c : Config) : Config :=
  match getSetting stg "MONGODB_REPLICA_SET_W" with
  | some (.int n) => { c with write_concern := n }
  | _ => c

/-- Option `('database', 'MONGODB_DATABASE')` of the options loop. -/
def applyOptDatabase (stg : Settings) (c : Config) : Config :=
  match getSetting stg "MONGODB_DATABASE" with
  | some (.str s) => if s = "" then c else { c with database := s }
  | _ => c

/-- Option `('collection', 'MONGODB_COLLECTION')` of the options loop. -/
def applyOptCollection (stg : Settings) (c : Config) : Config :=
  match getSetting stg "MONGODB_COLLECTION" with
  | some (.table t) => { c with collection := t }
  | _ => c

/-- Option `('replica_set', 'MONGODB_REPLICA_SET')` of the options loop. -/
def applyOptReplicaSet (stg : Settings) (c : Config) : Config :=
  match getSetting stg "MONGODB_REPLICA_SET" with
  | some (.str s) => if s = "" then c else { c with replica_set := some s }
  | _ => c

/-- The options loop of `configure` (source lines 175-187): each setting, in
source order, overwrites the corresponding config key when it is set.  The
settings are assumed to carry values of the expected type; a value of another
shape leaves the config key unchanged (the source stores values untyped). -/
def applyOptions (stg : Settings) (cfg : Config) : Config :=
  applyOptReplicaSet stg (applyOptCollection stg (applyOptDatabase stg
    (applyOptW stg (applyOptFsync stg (applyOptUri stg cfg)))))

/-- Source `configure` (lines 145-187): resolve the deprecated
`MONGODB_HOST` / `MONGODB_PORT` pair (the port branch evaluates the format
string `'mongodb://{0}:{1:i}'`), then the deprecated replica-set hosts, then
the regular options. -/
def configure (stg : Settings) (cfg0 : Config) : Except PyErr Config :=
  let step1 : Except PyErr Config :=
    if not_set (getSetting stg "MONGODB_HOST") then Except.ok cfg0
    else
      let host := (getSetting stg "MONGODB_HOST").getD (.str "")
      if not_set (getSetting stg "MONGODB_PORT") then
        Except.ok { cfg0 with uri := "mongodb://" ++ valToStr host ++ ":27017" }
      else
        let port := (getSetting stg "MONGODB_PORT").getD (.str "")
        match pyFormatField "" host with
        | Except.error e => Except.error e
        | Except.ok h =>
          match pyFormatField "i" port with
          | Except.error e => Except.error e
          | Except.ok p =>
              Except.ok { cfg0 with uri := "mongodb://" ++ h ++ ":" ++ p }
  match step1 with
  | Except.error e => Except.error e
  | Except.ok cfg1 =>
    let cfg2 :=
      if not_set (getSetting stg "MONGODB_REPLICA_SET") then cfg1
      else if not_set (getSetting stg "MONGODB_REPLICA_SET_HOSTS") then cfg1
      else
        { cfg1 with
            uri := "mongodb://" ++
              valToStr ((getSetting stg "MONGODB_REPLICA_SET_HOSTS").getD (.str "")) }
    Except.ok (applyOptions stg cfg2)

/-- The connection opened by `open_spider` (source lines 85-97): replica-set
mode passes the write concern `w`; standalone mode passes only `fsync` — the
`MongoClient` call has no `w` argument at all. -/
def makeConnection (cfg : Config) : Event :=
  match cfg.replica_set with
  | some rs => .replicaConn cfg.uri rs cfg.write_concern cfg.fsync .primaryPreferred
  | none => .standaloneConn cfg.uri cfg.fsync .primary

/-- Python truthiness of `collection['buffer']`: `None` and `0` are falsy. -/
def truthyBuffer : Option Int → Bool
  | none => false
  | some n => n ≠ 0

/-- Python truthiness of `collection['unique_key']`: `None`, `''` and `[]`
are falsy. -/
def truthyUK : Option UniqueKey → Bool
  | none => false
  | some (.single s) => s ≠ ""
  | some (.fieldList l) => l ≠ []

/-- Subscripting a routing-table value: a `None` entry raises TypeError. -/
def entryGet (v : Option CollEntry) : Except PyErr CollEntry :=
  match v with
  | some e => Except.ok e
  | none => Except.error (.typeErr "NoneType object is not subscriptable")

/-- Python falsity of a routing-table value (`if not entry:`). -/
def entryFalsy (v : Option CollEntry) : Bool :=
  v.isNone

/-- The message of the `SyntaxError` raised by `open_spider` on a negative
`stop_on_duplicate` value (source lines 130-135). -/
def negMsg : String :=
  "Negative values are not allowed for MONGODB_STOP_ON_DUPLICATE option."

/-- The state updates of one iteration of the `open_spider` setup loop
(source lines 104-111): fill `buffer_settings` (0 when the configured buffer
is falsy), an empty `item_buffer` entry and a zero `current_item` entry. -/
def entryState (st : PipeState) (itype : String) (entry : CollEntry) : PipeState :=
  { st with
      buffer_settings :=
        mapSet st.buffer_settings itype
          (if truthyBuffer entry.buffer then entry.buffer.getD 0 else 0)
      item_buffer := mapSet st.item_buffer itype []
      current_item := mapSet st.current_item itype 0 }

/-- The events of one iteration of the `open_spider` setup loop: the
`ensure_index` call made when the unique key is truthy (lines 113-117). -/
def entryEvents (itype : String) (entry : CollEntry) : List Event :=
  match entry.unique_key with
  | some uk => if truthyUK (some uk) then [Event.ensureIndex itype uk] else []
  | none => []

/-- One full iteration of the `open_spider` setup loop on the state: the
lines 104-111 updates of `entryState` plus the `stop_on_duplicate[itype]`
assignment (lines 136-138) with the value `sod`. -/
def entryStateFull (st : PipeState) (itype : String) (entry : CollEntry)
    (sod : Int) : PipeState :=
  let st' := entryState st itype entry
  { st' with stop_on_duplicate := mapSet st'.stop_on_duplicate itype sod }

/-- The per-type setup loop of `open_spider` (source lines 104-143), run on
the resolved routing table in iteration order.  For each type it fills the
per-type state, ensures the unique index when the key is truthy, and checks
`stop_on_duplicate`: a nonzero negative value raises `SyntaxError` on the
spot, a positive one is stored, a zero (falsy) one stores 0.
`duplicate_key_count` is never touched.  Returns the events emitted so far
together with the outcome. -/
def openLoop :
    List (String × Option CollEntry) → PipeState → List Event →
      List Event × Except PyErr PipeState
  | [], st, evs => (evs, Except.ok st)
  | (itype, v) :: rest, st, evs =>
    match v with
    | none => (evs, Except.error (.typeErr "NoneType object is not subscriptable"))
    | some entry =>
      let evs' := evs ++ entryEvents itype entry
      if entry.stop_on_duplicate ≠ 0 then
        if entry.stop_on_duplicate < 0 then
          (evs', Except.error (.synErr negMsg))
        else
          openLoop rest (entryStateFull st itype entry entry.stop_on_duplicate) evs'
      else
        openLoop rest (entryStateFull st itype entry 0) evs'

/-- Source `open_spider` (lines 79-143): resolve the configuration, open the
connection (lines 85-97) and only then run the per-type setup loop — so the
connection event precedes any `stop_on_duplicate` validation.  Returns the
emitted events and either the resolved config plus state or the error. -/
def open_spider (stg : Settings) : List Event × Except PyErr (Config × PipeState) :=
  match configure stg defaultConfig with
  | Except.error e => ([], Except.error e)
  | Except.ok cfg =>
    match openLoop cfg.collection initState [makeConnection cfg] with
    | (evs, Except.error e) => (evs, Except.error e)
    | (evs, Except.ok st) => (evs, Except.ok (cfg, st))

/-- Python comparison for the flush test
`self.current_item[itype] == collection['buffer']` (line 213): comparing an
int with `None` is `False` in Python. -/
def intEqOptInt (c : Int) (b : Option Int) : Bool :=
  match b with
  | some n => c = n
  | none => false

/-- Python `dict(seq)` on a list of strings (line 272): every element must
be a sequence of length 2 — a 2-character string becomes a (key, value) pair
of its characters — otherwise `ValueError`.  (Later duplicates overwriting
earlier keys are not modelled; the source only reads the keys.) -/
def pyDictOfStrings : List String → Except PyErr (List (String × String))
  | [] => Except.ok []
  | s :: rest =>
    match s.toList with
    | [a, b] =>
      match pyDictOfStrings rest with
      | Except.error e => Except.error e
      | Except.ok t => Except.ok ((String.singleton a, String.singleton b) :: t)
    | _ => Except.error (.valueErr "dictionary update sequence element has wrong length")

/-- Source `insert_item` (lines 233-285).  The `oracle` is the store's behaviour:
`true` means the `insert` call (line 252) raises `DuplicateKeyError`.
Faithful consequences of the source text:
* a non-list argument reaches line 247, which reads the misspelled name
  `collecgtion` and raises `NameError` before anything else happens;
* in the duplicate handler (lines 258-267), `duplicate_key_count[itype] += 1`
  raises `KeyError` when the counter was never seeded — and no code ever
  seeds it;
* on the unique-key branch (lines 269-277) the argument is necessarily a
  list here, so `item[k]` with a string key raises `TypeError` (and
  `dict(unique_key)` on a list of field names raises `ValueError` first
  unless every name has exactly 2 characters; with no keys at all, pymongo's
  `update` rejects the list document with `TypeError`). -/
def insert_item (cfg : Config) (st : PipeState) (oracle : Bool) (item : PyItem)
    (itype : String) : Except PyErr (PipeState × List Event × PyItem) :=
  match mapLookup cfg.collection itype with
  | none => Except.error (.keyErr itype)
  | some v =>
    match item with
    | .single _ => Except.error (.nameErr "collecgtion")
    | .batch l =>
      match entryGet v with
      | Except.error e => Except.error e
      | Except.ok entry =>
        match entry.unique_key with
        | none =>
          let evs := [Event.insertCall itype l]
          if oracle then
            match mapLookup st.stop_on_duplicate itype with
            | none => Except.error (.keyErr itype)
            | some sod =>
              if sod > 0 then
                match mapLookup st.duplicate_key_count itype with
                | none => Except.error (.keyErr itype)
                | some c =>
                  let st' :=
                    { st with duplicate_key_count :=
                        mapSet st.duplicate_key_count itype (c + 1) }
                  if c + 1 ≥ sod then
                    Except.ok (st',
                      evs ++ [Event.closeSpiderCall
                        "Number of duplicate key insertion exceeded"],
                      PyItem.batch l)
                  else Except.ok (st', evs, PyItem.batch l)
              else Except.ok (st, evs, PyItem.batch l)
          else Except.ok (st, evs, PyItem.batch l)
        | some uk =>
          match uk with
          | .fieldList fl =>
            match pyDictOfStrings fl with
            | Except.error e => Except.error e
            | Except.ok pairs =>
              if pairs.isEmpty then
                Except.error (.typeErr "document must be an instance of dict")
              else
                Except.error (.typeErr "list indices must be integers, not str")
          | .single _ =>
            Except.error (.typeErr "list indices must be integers, not str")

/-- Source `process_item` (lines 189-220).  The `ts` argument stands for the
`datetime.utcnow()` value of this call.  Lookup of the declared type name in
the routing table (line 200) raises `KeyError` when the key is absent — the
`'default'` fallback is only reached for a present-but-falsy entry.  On the
buffered path the count is incremented first (line 206), the (possibly
stamped) record appended, and when the count equals `collection['buffer']`
the count is zeroed and the whole buffer handed to `insert_item` — the
buffer itself is not cleared. -/
def process_item (cfg : Config) (st : PipeState) (oracle : Bool) (ts : String)
    (tname : String) (item : Item) :
    Except PyErr (PipeState × List Event × PyItem) :=
  match mapLookup cfg.collection tname with
  | none => Except.error (.keyErr tname)
  | some v0 =>
    let itype := if entryFalsy v0 then "default" else tname
    match mapLookup cfg.collection itype with
    | none => Except.error (.keyErr itype)
    | some v1 =>
      match mapLookup st.buffer_settings itype with
      | none => Except.error (.keyErr itype)
      | some bs =>
        if bs ≠ 0 then
          match mapLookup st.current_item itype with
          | none => Except.error (.keyErr itype)
          | some cur =>
            let st1 := { st with current_item := mapSet st.current_item itype (cur + 1) }
            match entryGet v1 with
            | Except.error e => Except.error e
            | Except.ok entry =>
              let item1 :=
                if entry.append_timestamp then item ++ [("scrapy-mongodb", ts)]
                else item
              match mapLookup st1.item_buffer itype with
              | none => Except.error (.keyErr itype)
              | some buf =>
                let st2 :=
                  { st1 with item_buffer := mapSet st1.item_buffer itype (buf ++ [item1]) }
                if intEqOptInt (cur + 1) entry.buffer then
                  let st3 := { st2 with current_item := mapSet st2.current_item itype 0 }
                  insert_item cfg st3 oracle (PyItem.batch (buf ++ [item1])) itype
                else
                  Except.ok (st2, [], PyItem.single item1)
        else
          insert_item cfg st oracle (PyItem.single item) itype

/-- Source `close_spider` (lines 222-231).  The loop header
`for itype, item_buffer in self.item_buffer.values:` names the bound method
object itself — the call parentheses are missing — and iterating a method
object raises `TypeError` immediately, before any buffer is flushed; no
`insert_item` call is ever reached on this path. -/
def close_spider (_st : PipeState) : Except PyErr (PipeState × List Event) :=
  Except.error (.typeErr "builtin_function_or_method object is not iterable")

/-- Run a sequence of `process_item` calls (one per submitted record),
threading the state, concatenating the emitted events in order, and stopping
at the first Python error.  The store raises no duplicate errors here. -/
def runSubs (cfg : Config) (ts : String) :
    PipeState → List (String × Item) → Except PyErr (PipeState × List Event)
  | st, [] => Except.ok (st, [])
  | st, (tname, it) :: rest =>
    match process_item cfg st false ts tname it with
    | Except.error e => Except.error e
    | Except.ok (st', evs, _) =>
      match runSubs cfg ts st' rest with
      | Except.error e => Except.error e
      | Except.ok (st'', evs') => Except.ok (st'', evs ++ evs')

/-- Run `k` consecutive `insert_item` calls on the same batch, each one with
the store raising `DuplicateKeyError`, threading state and events. -/
def runInserts (cfg : Config) (itype : String) (l : List Item) :
    Nat → PipeState → Except PyErr (PipeState × List Event)
  | 0, st => Except.ok (st, [])
  | k + 1, st =>
    match insert_item cfg st true (PyItem.batch l) itype with
    | Except.error e => Except.error e
    | Except.ok (st', evs, _) =>
      match runInserts cfg itype l k st' with
      | Except.error e => Except.error e
      | Except.ok (st'', evs') => Except.ok (st'', evs ++ evs')

/-- The buffer-count invariant: every record type whose routing entry sets a
positive buffer threshold has an accumulation count in `0 .. N-1`. -/
def countInv (cfg : Config) (st : PipeState) : Prop :=
  ∀ t entry N, mapLookup cfg.collection t = some (some entry) →
    entry.buffer = some N → 0 < N →
    ∃ c, mapLookup st.current_item t = some c ∧ 0 ≤ c ∧ c < N

/-! ### Concrete fixtures

Settings, configs and states used as concrete inputs by counterexamples and
witnesses.  States named `stAfterX` are the values `open_spider` computes on
the corresponding settings (checked by `rfl` inside the theorems). -/

/-- A sample record. -/
def itemA : Item := [("f", "a")]

/-- A second sample record. -/
def itemB : Item := [("f", "b")]

/-- A routing entry with buffer threshold 1. -/
def entryBuf1 : CollEntry :=
  { name := "items", unique_key := none, buffer := some 1,
    append_timestamp := false, stop_on_duplicate := 0 }

/-- Settings routing everything to a single buffered (threshold 1) type. -/
def stg1 : Settings :=
  [("MONGODB_COLLECTION", SettingVal.table [("default", some entryBuf1)])]

/-- The config `open_spider stg1` resolves. -/
def cfg1 : Config :=
  { defaultConfig with collection := [("default", some entryBuf1)] }

/-- The pipeline state `open_spider stg1` builds. -/
def st1 : PipeState :=
  { current_item := [("default", 0)]
    item_buffer := [("default", [])]
    duplicate_key_count := []
    stop_on_duplicate := [("default", 0)]
    buffer_settings := [("default", 1)] }

/-- A routing entry with duplicate-stop threshold 1. -/
def entryT1 : CollEntry :=
  { name := "items", unique_key := none, buffer := none,
    append_timestamp := false, stop_on_duplicate := 1 }

/-- Settings with duplicate-stop threshold 1 on the default type. -/
def stgT1 : Settings :=
  [("MONGODB_COLLECTION", SettingVal.table [("default", some entryT1)])]

/-- The config `open_spider stgT1` resolves. -/
def cfgT1 : Config :=
  { defaultConfig with collection := [("default", some entryT1)] }

/-- The pipeline state `open_spider stgT1` builds: note that
`duplicate_key_count` is left empty. -/
def stT1 : PipeState :=
  { current_item := [("default", 0)]
    item_buffer := [("default", [])]
    duplicate_key_count := []
    stop_on_duplicate := [("default", 1)]
    buffer_settings := [("default", 0)] }

/-- A routing entry with a negative duplicate-stop threshold. -/
def entryNeg : CollEntry :=
  { name := "items", unique_key := none, buffer := none,
    append_timestamp := false, stop_on_duplicate := -1 }

/-- Settings carrying the negative-threshold entry. -/
def stgNeg : Settings :=
  [("MONGODB_COLLECTION", SettingVal.table [("default", some entryNeg)])]

/-- The config `configure` resolves on `stgNeg`. -/
def cfgNeg : Config :=
  { defaultConfig with collection := [("default", some entryNeg)] }

/-- A routing entry with a single-field unique key. -/
def entryUK : CollEntry :=
  { name := "items", unique_key := some (UniqueKey.single "url"), buffer := none,
    append_timestamp := false, stop_on_duplicate := 0 }

/-- A config whose default type declares the unique key. -/
def cfgUK : Config :=
  { defaultConfig with collection := [("default", some entryUK)] }

/-- The pipeline state `open_spider` builds for `cfgUK`. -/
def stUK : PipeState :=
  { current_item := [("default", 0)]
    item_buffer := [("default", [])]
    duplicate_key_count := []
    stop_on_duplicate := [("default", 0)]
    buffer_settings := [("default", 0)] }

/-- The state `open_spider` builds on empty settings (default config). -/
def stDefault : PipeState :=
  { current_item := [("default", 0)]
    item_buffer := [("default", [])]
    duplicate_key_count := []
    stop_on_duplicate := [("default", 0)]
    buffer_settings := [("default", 0)] }

/-- The state after one flushing `process_item` call on `st1` (threshold 1):
the count is back to 0 but the flushed record stays in the buffer. -/
def st1Flush : PipeState :=
  { current_item := [("default", 0)]
    item_buffer := [("default", [itemA])]
    duplicate_key_count := []
    stop_on_duplicate := [("default", 0)]
    buffer_settings := [("default", 1)] }

/-- A shutdown-time state with two non-empty pending buffers: type "A" holds
two records and type "B" one record. -/
def stBuffers : PipeState :=
  { current_item := [("A", 2), ("B", 1)]
    item_buffer := [("A", [itemA, itemB]), ("B", [itemA])]
    duplicate_key_count := []
    stop_on_duplicate := [("A", 0), ("B", 0)]
    buffer_settings := [("A", 3), ("B", 3)] }

/-- Settings with both deprecated options `MONGODB_HOST` and `MONGODB_PORT`. -/
def stgHostPort : Settings :=
  [("MONGODB_HOST", SettingVal.str "h"), ("MONGODB_PORT", SettingVal.int 123)]

/-- Settings with the deprecated `MONGODB_HOST` only. -/
def stgHostOnly : Settings :=
  [("MONGODB_HOST", SettingVal.str "h")]

/-- A replica-set config for exercising the connection constructor. -/
def cfgReplica : Config :=
  { defaultConfig with replica_set := some "rs0", write_concern := 2, fsync := true }

/-! ### Association-list lemmas -/

theorem mapLookup_mapSet_self {α : Type} (m : List (String × α)) (k : String) (v : α) :
    mapLookup (mapSet m k v) k = some v := by
  induction m with
  | nil => simp [mapLookup, mapSet]
  | cons p rest ih =>
    obtain ⟨k', v'⟩ := p
    by_cases hk : k' = k
    · simp [mapLookup, mapSet, hk]
    · simp [mapLookup, mapSet, hk, ih]

theorem mapLookup_mapSet_ne {α : Type} (m : List (String × α)) (k t : String) (v : α)
    (h : k ≠ t) : mapLookup (mapSet m k v) t = mapLookup m t := by
  induction m with
  | nil => simp [mapLookup, mapSet, if_neg h]
  | cons p rest ih =>
    obtain ⟨k', v'⟩ := p
    by_cases hk : k' = k
    · subst hk
      simp [mapLookup, mapSet, if_neg h]
    · simp only [mapSet, if_neg hk]
      by_cases ht : k' = t
      · simp [mapLookup, ht]
      · simp [mapLookup, ht, ih]

theorem mapSet_mapSet {α : Type} (m : List (String × α)) (k : String) (a b : α) :
    mapSet (mapSet m k a) k b = mapSet m k b := by
  induction m with
  | nil => simp [mapSet]
  | cons p rest ih =>
    obtain ⟨k', v'⟩ := p
    by_cases hk : k' = k
    · simp [mapSet, hk]
    · simp [mapSet, hk, ih]

theorem mapSet_lookup_id {α : Type} (m : List (String × α)) (k : String) (v : α)
    (h : mapLookup m k = some v) : mapSet m k v = m := by
  induction m with
  | nil => simp [mapLookup] at h
  | cons p rest ih =>
    obtain ⟨k', v'⟩ := p
    by_cases hk : k' = k
    · subst hk
      simp [mapLookup] at h
      simp [mapSet, h]
    · simp [mapLookup, hk] at h
      simp [mapSet, hk, ih h]

/-! ### Structural lemmas about `insert_item` -/

/-- A single (non-list) record handed to `insert_item` never succeeds: the
path reads the misspelled `collecgtion` first. -/
theorem insert_item_single_err (cfg : Config) (st : PipeState) (oracle : Bool)
    (i : Item) (t : String) (x : PipeState × List Event × PyItem)
    (h : insert_item cfg st oracle (PyItem.single i) t = Except.ok x) : False := by
  unfold insert_item at h
  split at h
  · exact Except.noConfusion h
  · exact Except.noConfusion h

/-- A successful `insert_item` call leaves every state component except
`duplicate_key_count` unchanged. -/
theorem insert_item_state_eq (cfg : Config) (st : PipeState) (oracle : Bool)
    (it : PyItem) (t : String) (st' : PipeState) (evs : List Event) (r : PyItem)
    (h : insert_item cfg st oracle it t = Except.ok (st', evs, r)) :
    st'.current_item = st.current_item ∧ st'.item_buffer = st.item_buffer ∧
      st'.buffer_settings = st.buffer_settings ∧
      st'.stop_on_duplicate = st.stop_on_duplicate := by
  unfold insert_item at h
  repeat' split at h
  all_goals
    first
    | exact Except.noConfusion h
    | (simp only [Except.ok.injEq, Prod.mk.injEq] at h
       obtain ⟨hst, hev, hr⟩ := h
       subst hst
       exact ⟨rfl, rfl, rfl, rfl⟩)

/-- Calling `insert_item` on a batch, for a type whose entry has no unique key and
duplicate-stop threshold 0, absorbs a `DuplicateKeyError` silently: the call
returns the batch, the state is unchanged, and the only event is the store
insert. -/
theorem insert_item_dup_zero (cfg : Config) (st : PipeState) (itype : String)
    (l : List Item) (entry : CollEntry)
    (h1 : mapLookup cfg.collection itype = some (some entry))
    (h2 : entry.unique_key = none)
    (h3 : mapLookup st.stop_on_duplicate itype = some 0) :
    insert_item cfg st true (PyItem.batch l) itype =
      Except.ok (st, [Event.insertCall itype l], PyItem.batch l) := by
  unfold insert_item
  rw [h1]
  simp [entryGet, h2, h3]

/-! ### Claim theorems (code defects) -/

/-- C2: with duplicate-stop threshold 1 installed by `open_spider`, the very
first duplicate-key violation does not call `close_spider` — it raises
`KeyError`, because `duplicate_key_count['default'] += 1` reads a counter no
code ever initializes. -/
theorem C2_first_duplicate_keyerror :
    (open_spider stgT1).2 = Except.ok (cfgT1, stT1) ∧
    insert_item cfgT1 stT1 true (PyItem.batch [itemA]) "default" =
      Except.error (PyErr.keyErr "default") :=
  ⟨rfl, rfl⟩

/-- C3: the unique-key path of the Insertion Engine never performs an
upsert.  A single record raises `NameError` at the misspelled `collecgtion`
before the unique-key branch is reached, and a buffered batch raises
`TypeError` when the key filter indexes the list with the field name. -/
theorem C3_upsert_path_raises :
    insert_item cfgUK stUK false (PyItem.single itemA) "default" =
      Except.error (PyErr.nameErr "collecgtion") ∧
    insert_item cfgUK stUK false (PyItem.batch [itemA, itemB]) "default" =
      Except.error (PyErr.typeErr "list indices must be integers, not str") :=
  ⟨rfl, rfl⟩

/-- C4: `close_spider` never flushes anything: iterating
`self.item_buffer.values` (the uncalled method object) raises `TypeError`
even with non-empty pending buffers for types "A" (2 records) and "B" (1). -/
theorem C4_close_spider_always_raises :
    close_spider stBuffers =
      Except.error (PyErr.typeErr "builtin_function_or_method object is not iterable") :=
  rfl

/-- C5: a record whose declared type has no routing entry is not routed to
`"default"`: the lookup `self.config['collection'][itype]` raises `KeyError`
before the fallback test runs, although the table does hold a default
entry. -/
theorem C5_unknown_type_keyerror :
    (open_spider ([] : Settings)).2 = Except.ok (defaultConfig, stDefault) ∧
    mapLookup defaultConfig.collection "UnknownItem" = none ∧
    mapLookup defaultConfig.collection "default" = some (some defaultEntry) ∧
    process_item defaultConfig stDefault false "t0" "UnknownItem" itemA =
      Except.error (PyErr.keyErr "UnknownItem") :=
  ⟨rfl, rfl, rfl, rfl⟩

/-- C6 counterexample: on a config whose only entry carries duplicate-stop
threshold -1, `open_spider` does fail — but the emitted event trace already
contains the standalone connection, so the failure does not precede the
connection attempt as the claim states. -/
theorem C6_counterexample :
    open_spider stgNeg =
      ([Event.standaloneConn "mongodb://localhost:27017" false ReadPref.primary],
        Except.error (PyErr.synErr negMsg)) :=
  rfl

/-- C10: the connection opened by `open_spider` carries the configured write
concern exactly when a replica set is configured; in standalone mode the
connection has the fsync flag, a primary-only read preference, and no write
concern at all — changing `write_concern` does not change the standalone
connection. -/
theorem C10_write_concern_replica_only (cfg : Config) :
    (cfg.replica_set = none →
       makeConnection cfg = Event.standaloneConn cfg.uri cfg.fsync ReadPref.primary) ∧
    (cfg.replica_set = none → ∀ w,
       makeConnection { cfg with write_concern := w } = makeConnection cfg) ∧
    (∀ rs, cfg.replica_set = some rs →
       makeConnection cfg =
         Event.replicaConn cfg.uri rs cfg.write_concern cfg.fsync ReadPref.primaryPreferred) := by
  refine ⟨fun h => ?_, fun h w => ?_, fun rs h => ?_⟩ <;> simp [makeConnection, h]

/-- Witness for C10 at two concrete configs, one standalone, one replica. -/
theorem C10_witness :
    makeConnection defaultConfig =
      Event.standaloneConn "mongodb://localhost:27017" false ReadPref.primary ∧
    makeConnection cfgReplica =
      Event.replicaConn "mongodb://localhost:27017" "rs0" 2 true ReadPref.primaryPreferred :=
  ⟨(C10_write_concern_replica_only defaultConfig).1 rfl,
   (C10_write_concern_replica_only cfgReplica).2.2 "rs0" rfl⟩

/-- C7: for a type with duplicate-stop threshold 0 and no unique key, any
number `k` of insert calls whose store each raises `DuplicateKeyError` is
absorbed silently: every call returns normally, the state (in particular the
duplicate counter) is unchanged, and the emitted events are the `k` store
inserts — never a `close_spider` request. -/
theorem C7_threshold_zero_absorbs (cfg : Config) (st : PipeState) (itype : String)
    (l : List Item) (entry : CollEntry) (k : Nat)
    (h1 : mapLookup cfg.collection itype = some (some entry))
    (h2 : entry.unique_key = none)
    (h3 : mapLookup st.stop_on_duplicate itype = some 0) :
    runInserts cfg itype l k st =
      Except.ok (st, List.replicate k (Event.insertCall itype l)) ∧
    ∀ st2 evs, runInserts cfg itype l k st = Except.ok (st2, evs) →
      ∀ reason, Event.closeSpiderCall reason ∉ evs := by
  have main : runInserts cfg itype l k st =
      Except.ok (st, List.replicate k (Event.insertCall itype l)) := by
    induction k with
    | zero => rfl
    | succ n ih =>
      unfold runInserts
      rw [insert_item_dup_zero cfg st itype l entry h1 h2 h3]
      simp [ih, List.replicate_succ]
  refine ⟨main, ?_⟩
  intro st2 evs hrun reason
  rw [main] at hrun
  simp only [Except.ok.injEq, Prod.mk.injEq] at hrun
  obtain ⟨-, hevs⟩ := hrun
  subst hevs
  simp [List.mem_replicate]

/-- Witness for C7: three duplicate-raising inserts on the default config
(threshold 0) leave the state unchanged and emit three insert events. -/
theorem C7_witness :
    runInserts defaultConfig "default" [itemA] 3 stDefault =
      Except.ok (stDefault, List.replicate 3 (Event.insertCall "default" [itemA])) :=
  (C7_threshold_zero_absorbs defaultConfig stDefault "default" [itemA] defaultEntry 3
    rfl rfl rfl).1

/-! ### Lemmas about the `open_spider` setup loop -/

/-- The loop `openLoop` only ever appends to the event accumulator. -/
theorem openLoop_fst_mono :
    ∀ (l : List (String × Option CollEntry)) (st : PipeState) (evs : List Event),
      ∃ tail, (openLoop l st evs).1 = evs ++ tail := by
  intro l
  induction l with
  | nil => intro st evs; exact ⟨[], by simp [openLoop]⟩
  | cons p rest ih =>
    intro st evs
    obtain ⟨t, v⟩ := p
    cases v with
    | none => exact ⟨[], by simp [openLoop]⟩
    | some entry =>
      by_cases h0 : entry.stop_on_duplicate ≠ 0
      · by_cases hneg : entry.stop_on_duplicate < 0
        · refine ⟨entryEvents t entry, ?_⟩
          simp only [openLoop]
          rw [if_pos h0, if_pos hneg]
        · obtain ⟨tail, htail⟩ :=
            ih (entryStateFull st t entry entry.stop_on_duplicate)
              (evs ++ entryEvents t entry)
          refine ⟨entryEvents t entry ++ tail, ?_⟩
          simp only [openLoop]
          rw [if_pos h0, if_neg hneg, htail, List.append_assoc]
      · obtain ⟨tail, htail⟩ :=
          ih (entryStateFull st t entry 0) (evs ++ entryEvents t entry)
        refine ⟨entryEvents t entry ++ tail, ?_⟩
        simp only [openLoop]
        rw [if_neg h0, htail, List.append_assoc]

/-- When every routing entry is a real dict and some entry has a negative
duplicate-stop threshold, the setup loop ends in the `SyntaxError`. -/
theorem openLoop_neg_err :
    ∀ (l : List (String × Option CollEntry)) (st : PipeState) (evs : List Event),
      (∀ p ∈ l, p.2 ≠ (none : Option CollEntry)) →
      (∃ p ∈ l, ∃ e, p.2 = some e ∧ e.stop_on_duplicate < 0) →
      (openLoop l st evs).2 = Except.error (PyErr.synErr negMsg) := by
  intro l
  induction l with
  | nil =>
    intro st evs _ hex
    obtain ⟨p, hp, -⟩ := hex
    exact absurd hp (List.not_mem_nil p)
  | cons q rest ih =>
    intro st evs hall hex
    obtain ⟨t, v⟩ := q
    obtain ⟨entry, rfl⟩ : ∃ e, v = some e := by
      cases v with
      | none => exact absurd rfl (hall (t, none) (List.mem_cons_self _ _))
      | some e => exact ⟨e, rfl⟩
    by_cases hneg : entry.stop_on_duplicate < 0
    · have h0 : entry.stop_on_duplicate ≠ 0 := by omega
      simp only [openLoop]
      rw [if_pos h0, if_pos hneg]
    · have hrest : ∃ p ∈ rest, ∃ e, p.2 = some e ∧ e.stop_on_duplicate < 0 := by
        obtain ⟨p, hp, e, hpe, he⟩ := hex
        rcases List.mem_cons.1 hp with hh | hh
        · exfalso
          apply hneg
          have : some entry = some e := by rw [← hpe, hh]
          cases this
          exact he
        · exact ⟨p, hh, e, hpe, he⟩
      have hallr : ∀ p ∈ rest, p.2 ≠ (none : Option CollEntry) :=
        fun p hp => hall p (List.mem_cons_of_mem _ hp)
      by_cases h0 : entry.stop_on_duplicate ≠ 0
      · simp only [openLoop]
        rw [if_pos h0, if_neg hneg]
        exact ih _ _ hallr hrest
      · simp only [openLoop]
        rw [if_neg h0]
        exact ih _ _ hallr hrest

/-- C6 (amended): a routing table containing a negative duplicate-stop
threshold makes `open_spider` fail with the configuration error (a Python
`SyntaxError`), but only after the connection is opened: the first emitted
event of the failing run is the connection itself. -/
theorem C6_amended_error_after_connect (stg : Settings) (cfg : Config)
    (hc : configure stg defaultConfig = Except.ok cfg)
    (hall : ∀ p ∈ cfg.collection, p.2 ≠ (none : Option CollEntry))
    (hneg : ∃ p ∈ cfg.collection, ∃ e, p.2 = some e ∧ e.stop_on_duplicate < 0) :
    (open_spider stg).2 = Except.error (PyErr.synErr negMsg) ∧
    (open_spider stg).1.head? = some (makeConnection cfg) := by
  have herr := openLoop_neg_err cfg.collection initState [makeConnection cfg] hall hneg
  obtain ⟨tail, htail⟩ := openLoop_fst_mono cfg.collection initState [makeConnection cfg]
  unfold open_spider
  rw [hc]
  dsimp only
  rcases hres : openLoop cfg.collection initState [makeConnection cfg] with ⟨evs, res⟩
  rw [hres] at herr htail
  simp only at herr htail
  subst herr
  simp [htail]

/-- Witness for C6 (amended) at the concrete negative-threshold settings. -/
theorem C6_witness :
    (open_spider stgNeg).2 = Except.error (PyErr.synErr negMsg) ∧
    (open_spider stgNeg).1.head? = some (makeConnection cfgNeg) :=
  C6_amended_error_after_connect stgNeg cfgNeg rfl (by decide) (by decide)

/-! ### `configure` and the deprecated host/port options -/

/-- Collapsing the replica-set-hosts branch of `configure` when either of
the two deprecated replica settings is unset. -/
theorem skip_if_chain {α : Type} (a b : Bool) (x y : α) (h : a = true ∨ b = true) :
    (if a = true then x else if b = true then x else y) = x := by
  rcases h with h | h
  · rw [h]
    simp
  · by_cases ha : a = true
    · rw [ha]
      simp
    · simp only [Bool.not_eq_true] at ha
      rw [ha, h]
      simp

theorem not_set_true_iff (v : Option SettingVal) :
    not_set v = true ↔ v = none ∨ v = some (SettingVal.str "") := by
  cases v with
  | none => simp [not_set]
  | some val => cases val <;> simp [not_set]

theorem applyOptFsync_uri (stg : Settings) (c : Config) :
    (applyOptFsync stg c).uri = c.uri := by
  unfold applyOptFsync; split <;> rfl

theorem applyOptW_uri (stg : Settings) (c : Config) :
    (applyOptW stg c).uri = c.uri := by
  unfold applyOptW; split <;> rfl

theorem applyOptDatabase_uri (stg : Settings) (c : Config) :
    (applyOptDatabase stg c).uri = c.uri := by
  unfold applyOptDatabase; split
  · split <;> rfl
  · rfl

theorem applyOptCollection_uri (stg : Settings) (c : Config) :
    (applyOptCollection stg c).uri = c.uri := by
  unfold applyOptCollection; split <;> rfl

theorem applyOptReplicaSet_uri (stg : Settings) (c : Config) :
    (applyOptReplicaSet stg c).uri = c.uri := by
  unfold applyOptReplicaSet; split
  · split <;> rfl
  · rfl

/-- The options loop leaves the uri untouched when `MONGODB_URI` is unset. -/
theorem applyOptions_uri (stg : Settings) (cfg : Config)
    (h : not_set (getSetting stg "MONGODB_URI") = true) :
    (applyOptions stg cfg).uri = cfg.uri := by
  have h1 : (applyOptUri stg cfg) = cfg := by
    rcases (not_set_true_iff _).1 h with hu | hu
    · unfold applyOptUri
      rw [hu]
    · unfold applyOptUri
      rw [hu]
      rfl
  unfold applyOptions
  rw [applyOptReplicaSet_uri, applyOptCollection_uri, applyOptDatabase_uri,
    applyOptW_uri, applyOptFsync_uri, h1]

/-- C9: with the deprecated `MONGODB_HOST` set, `configure` raises the
format `ValueError` (the `'{1:i}'` spec is invalid) whenever `MONGODB_PORT`
is also set to any string/int/bool value, instead of producing a
`'mongodb://host:port'` uri; when `MONGODB_PORT` is unset (and no other
setting overrides the uri), it resolves `'mongodb://host:27017'`. -/
theorem C9_deprecated_host_port (stg : Settings) (host : String)
    (hhost : getSetting stg "MONGODB_HOST" = some (SettingVal.str host))
    (hne : host ≠ "") :
    (∀ pv, getSetting stg "MONGODB_PORT" = some pv → not_set (some pv) = false →
       (∀ tb, pv ≠ SettingVal.table tb) →
       ∃ m, configure stg defaultConfig = Except.error (PyErr.valueErr m)) ∧
    (not_set (getSetting stg "MONGODB_PORT") = true →
     not_set (getSetting stg "MONGODB_URI") = true →
     (not_set (getSetting stg "MONGODB_REPLICA_SET") = true ∨
      not_set (getSetting stg "MONGODB_REPLICA_SET_HOSTS") = true) →
       ∃ cfg, configure stg defaultConfig = Except.ok cfg ∧
         cfg.uri = "mongodb://" ++ host ++ ":27017") := by
  constructor
  · intro pv hpv hset hnt
    simp only [configure, hhost, hpv]
    cases pv with
    | table tb => exact absurd rfl (hnt tb)
    | str s =>
      refine ⟨"Unknown format code for str", ?_⟩
      simp only [not_set] at hset
      simp [not_set, hne, hset, pyFormatField, valToStr]
    | int n =>
      refine ⟨"Unknown format code for int", ?_⟩
      simp [not_set, hne, pyFormatField, valToStr]
    | bool b =>
      refine ⟨"Unknown format code for int", ?_⟩
      simp [not_set, hne, pyFormatField, valToStr]
  · intro hp hu hr
    refine ⟨applyOptions stg { defaultConfig with uri := "mongodb://" ++ host ++ ":27017" },
      ?_, ?_⟩
    · simp only [configure, hhost]
      have hh : not_set (some (SettingVal.str host)) = false := by
        simp [not_set, hne]
      rw [hh, hp, if_neg Bool.false_ne_true, if_pos rfl]
      dsimp only [Option.getD, valToStr]
      rw [skip_if_chain _ _ _ _ hr]
    · rw [applyOptions_uri stg _ hu]

/-- Witness for C9: host "h" with port 123 errors; host "h" alone resolves
port 27017. -/
theorem C9_witness :
    (∃ m, configure stgHostPort defaultConfig = Except.error (PyErr.valueErr m)) ∧
    (∃ cfg, configure stgHostOnly defaultConfig = Except.ok cfg ∧
       cfg.uri = "mongodb://" ++ "h" ++ ":27017") :=
  ⟨(C9_deprecated_host_port stgHostPort "h" rfl (by decide)).1 (SettingVal.int 123)
      rfl rfl (fun tb h => SettingVal.noConfusion h),
   (C9_deprecated_host_port stgHostOnly "h" rfl (by decide)).2 rfl rfl (Or.inl rfl)⟩

/-! ### The buffered path of `process_item` -/

/-- A `process_item` call on a buffered type that does not reach the
threshold: the count goes up by one, the record is appended to the buffer,
no event is emitted and the record is returned unflushed. -/
theorem process_item_no_flush (cfg : Config) (st : PipeState) (ts tname : String)
    (x : Item) (entry : CollEntry) (W c : Int) (B : List Item)
    (h1 : mapLookup cfg.collection tname = some (some entry))
    (h3 : entry.append_timestamp = false)
    (h6 : mapLookup st.buffer_settings tname = some W) (h7 : W ≠ 0)
    (h8 : mapLookup st.current_item tname = some c)
    (h9 : mapLookup st.item_buffer tname = some B)
    (hne : intEqOptInt (c + 1) entry.buffer = false) :
    process_item cfg st false ts tname x =
      Except.ok ({ st with
          current_item := mapSet st.current_item tname (c + 1)
          item_buffer := mapSet st.item_buffer tname (B ++ [x]) },
        [], PyItem.single x) := by
  simp only [process_item, h1, entryFalsy, Option.isNone_some, Bool.false_eq_true,
    if_false, h6, h8, entryGet, h3, h9, hne, h7, ne_eq, not_false_eq_true, if_true]

/-- A `process_item` call on a buffered type that reaches the threshold,
with no unique key and a store that raises nothing: the count is reset to 0,
the record joins the buffer, and the whole (uncleared) buffer is handed to
the store as one batch. -/
theorem process_item_flush (cfg : Config) (st : PipeState) (ts tname : String)
    (x : Item) (entry : CollEntry) (W c : Int) (B : List Item)
    (h1 : mapLookup cfg.collection tname = some (some entry))
    (h2 : entry.unique_key = none)
    (h3 : entry.append_timestamp = false)
    (h6 : mapLookup st.buffer_settings tname = some W) (h7 : W ≠ 0)
    (h8 : mapLookup st.current_item tname = some c)
    (h9 : mapLookup st.item_buffer tname = some B)
    (heq : intEqOptInt (c + 1) entry.buffer = true) :
    process_item cfg st false ts tname x =
      Except.ok ({ st with
          current_item := mapSet st.current_item tname 0
          item_buffer := mapSet st.item_buffer tname (B ++ [x]) },
        [Event.insertCall tname (B ++ [x])], PyItem.batch (B ++ [x])) := by
  simp only [process_item, h1, entryFalsy, Option.isNone_some, Bool.false_eq_true,
    if_false, h6, h8, entryGet, h3, h9, heq, h7, ne_eq, not_false_eq_true, if_true]
  simp only [insert_item, h1, entryGet, h2, Bool.false_eq_true, if_false]
  simp [mapSet_mapSet]

/-- Running `runSubs` distributes over appending submission lists. -/
theorem runSubs_append (cfg : Config) (ts : String) :
    ∀ (l1 : List (String × Item)) (st st1 : PipeState) (e1 : List Event)
      (l2 : List (String × Item)) (st2 : PipeState) (e2 : List Event),
      runSubs cfg ts st l1 = Except.ok (st1, e1) →
      runSubs cfg ts st1 l2 = Except.ok (st2, e2) →
      runSubs cfg ts st (l1 ++ l2) = Except.ok (st2, e1 ++ e2) := by
  intro l1
  induction l1 with
  | nil =>
    intro st st1 e1 l2 st2 e2 ha hb
    simp only [runSubs, Except.ok.injEq, Prod.mk.injEq] at ha
    obtain ⟨rfl, rfl⟩ := ha
    simpa using hb
  | cons q rest ih =>
    intro st st1 e1 l2 st2 e2 ha hb
    obtain ⟨tname, it⟩ := q
    simp only [runSubs] at ha
    rcases hstep : process_item cfg st false ts tname it with e | stepOut
    · rw [hstep] at ha
      exact Except.noConfusion ha
    · obtain ⟨st', evs, ritem⟩ := stepOut
      simp only [hstep] at ha
      rcases hrest : runSubs cfg ts st' rest with e | restOut
      · rw [hrest] at ha
        exact Except.noConfusion ha
      · obtain ⟨stm, em⟩ := restOut
        simp only [hrest, Except.ok.injEq, Prod.mk.injEq] at ha
        obtain ⟨rfl, rfl⟩ := ha
        have hcomb := ih st' stm em l2 st2 e2 hrest hb
        simp only [List.cons_append, runSubs, hstep, List.append_eq, hcomb,
          List.append_assoc]

/-- Filling a buffered type below its threshold: `xs` submissions increment
the count by `xs.length`, append `xs` to the buffer in order, and emit no
event. -/
theorem runSubs_fill (cfg : Config) (ts tname : String) (entry : CollEntry) (N : Int)
    (h1 : mapLookup cfg.collection tname = some (some entry))
    (h3 : entry.append_timestamp = false)
    (hbuf : entry.buffer = some N) :
    ∀ (xs : List Item) (st : PipeState) (W c : Int) (B : List Item),
      mapLookup st.buffer_settings tname = some W → W ≠ 0 →
      mapLookup st.current_item tname = some c →
      mapLookup st.item_buffer tname = some B →
      c + xs.length < N →
      runSubs cfg ts st (xs.map fun x => (tname, x)) =
        Except.ok ({ st with
            current_item := mapSet st.current_item tname (c + xs.length),
            item_buffer := mapSet st.item_buffer tname (B ++ xs) }, []) := by
  intro xs
  induction xs with
  | nil =>
    intro st W c B h6 h7 h8 h9 hlt
    simp only [List.map_nil, runSubs, List.length_nil, Nat.cast_zero, add_zero,
      List.append_nil]
    rw [mapSet_lookup_id _ _ _ h8, mapSet_lookup_id _ _ _ h9]
  | cons x rest ih =>
    intro st W c B h6 h7 h8 h9 hlt
    have hcne : intEqOptInt (c + 1) entry.buffer = false := by
      rw [hbuf]
      simp only [intEqOptInt, decide_eq_false_iff_not]
      have : (0 : Int) ≤ rest.length := Int.natCast_nonneg _
      simp only [List.length_cons] at hlt
      push_cast at hlt
      omega
    have ihh := ih
      { st with
          current_item := mapSet st.current_item tname (c + 1)
          item_buffer := mapSet st.item_buffer tname (B ++ [x]) }
      W (c + 1) (B ++ [x]) h6 h7
      (mapLookup_mapSet_self _ _ _) (mapLookup_mapSet_self _ _ _)
      (by simp only [List.length_cons] at hlt; push_cast at hlt ⊢; omega)
    simp only [List.map_cons, runSubs,
      process_item_no_flush cfg st ts tname x entry W c B h1 h3 h6 h7 h8 h9 hcne,
      ihh, mapSet_mapSet, List.append_assoc, List.singleton_append, List.append_nil,
      List.length_cons, Except.ok.injEq, Prod.mk.injEq, PipeState.mk.injEq,
      and_true, true_and]
    congr 1
    push_cast
    ring

/-- C1 counterexample: with buffer threshold 1 the first submission flushes
`[itemA]`, but after the second submission the Insertion Engine receives
`[itemA, itemB]`, not `[itemB]` — the pending buffer was never cleared, so a
later flush does not contain only records submitted after the earlier one. -/
theorem C1_counterexample :
    runSubs cfg1 "t0" st1 [("default", itemA), ("default", itemB)] =
      Except.ok ({ current_item := [("default", 0)]
                   item_buffer := [("default", [itemA, itemB])]
                   duplicate_key_count := []
                   stop_on_duplicate := [("default", 0)]
                   buffer_settings := [("default", 1)] },
        [Event.insertCall "default" [itemA],
         Event.insertCall "default" [itemA, itemB]]) ∧
    [itemA, itemB] ≠ [itemB] :=
  ⟨rfl, by decide⟩

/-- C1 (amended): for a type with buffer threshold `N = xs.length > 0` (no
unique key, no timestamp), submitting `xs` from a zero count fires exactly
one Insertion Engine call whose batch is the prior buffer contents `B`
followed by the `N` new records in submission order, and resets the count to
0 — but the pending buffer is NOT cleared: it still holds the entire batch,
so a later flush would resubmit these records. -/
theorem C1_amended_flush_keeps_buffer (cfg : Config) (st : PipeState)
    (ts tname : String) (entry : CollEntry) (W : Int) (B xs : List Item)
    (h1 : mapLookup cfg.collection tname = some (some entry))
    (h2 : entry.unique_key = none)
    (h3 : entry.append_timestamp = false)
    (hbuf : entry.buffer = some (xs.length : Int))
    (hxs : xs ≠ [])
    (h6 : mapLookup st.buffer_settings tname = some W) (h7 : W ≠ 0)
    (h8 : mapLookup st.current_item tname = some 0)
    (h9 : mapLookup st.item_buffer tname = some B) :
    runSubs cfg ts st (xs.map fun x => (tname, x)) =
      Except.ok ({ st with
          current_item := mapSet st.current_item tname 0
          item_buffer := mapSet st.item_buffer tname (B ++ xs) },
        [Event.insertCall tname (B ++ xs)]) := by
  rcases List.eq_nil_or_concat' xs with rfl | ⟨ys, xlast, rfl⟩
  · exact absurd rfl hxs
  · have hfill := runSubs_fill cfg ts tname entry ((ys ++ [xlast]).length : Int)
      h1 h3 hbuf ys st W 0 B h6 h7 h8 h9
      (by simp only [List.length_append, List.length_singleton]; push_cast; omega)
    have hflush := process_item_flush cfg
      { st with
          current_item := mapSet st.current_item tname (0 + ys.length)
          item_buffer := mapSet st.item_buffer tname (B ++ ys) }
      ts tname xlast entry W (0 + ys.length) (B ++ ys) h1 h2 h3 h6 h7
      (mapLookup_mapSet_self _ _ _) (mapLookup_mapSet_self _ _ _)
      (by
        rw [hbuf]
        simp only [intEqOptInt, List.length_append, List.length_singleton]
        push_cast
        simp)
    have hlast : runSubs cfg ts
        { st with
            current_item := mapSet st.current_item tname (0 + ys.length)
            item_buffer := mapSet st.item_buffer tname (B ++ ys) }
        [(tname, xlast)] =
        Except.ok ({ st with
            current_item := mapSet st.current_item tname 0
            item_buffer := mapSet st.item_buffer tname (B ++ (ys ++ [xlast])) },
          [Event.insertCall tname (B ++ (ys ++ [xlast]))]) := by
      simp only [runSubs]
      rw [hflush]
      simp [mapSet_mapSet, List.append_assoc]
    have := runSubs_append cfg ts (ys.map fun x => (tname, x)) st _ _
      [(tname, xlast)] _ _ hfill hlast
    simp only [List.map_append, List.map_cons, List.map_nil] at this ⊢
    simpa using this

/-- Witness for C1 (amended) at threshold 1 from the freshly opened state. -/
theorem C1_witness :
    runSubs cfg1 "t0" st1 ([itemA].map fun x => ("default", x)) =
      Except.ok ({ st1 with
          current_item := mapSet st1.current_item "default" 0
          item_buffer := mapSet st1.item_buffer "default" ([] ++ [itemA]) },
        [Event.insertCall "default" ([] ++ [itemA])]) :=
  C1_amended_flush_keeps_buffer cfg1 st1 "t0" "default" entryBuf1 1 [] [itemA]
    rfl rfl rfl rfl (by decide) rfl (by decide) rfl rfl

/-! ### The buffer-count invariant -/

theorem entryGet_ok (v : Option CollEntry) (e : CollEntry)
    (h : entryGet v = Except.ok e) : v = some e := by
  cases v with
  | none => exact Except.noConfusion h
  | some e' =>
    simp only [entryGet, Except.ok.injEq] at h
    rw [h]

/-- Every successful `process_item` call went through the buffered branch:
it read some type's count `cur` and either stored `cur + 1` (below
threshold) or reset the count to 0 (flush).  The non-buffered branch can
never return successfully because the single-record insert path always
raises. -/
theorem process_item_current_shape (cfg : Config) (st : PipeState) (oracle : Bool)
    (ts tname : String) (item : Item) (st' : PipeState) (evs : List Event) (r : PyItem)
    (h : process_item cfg st oracle ts tname item = Except.ok (st', evs, r)) :
    ∃ itype cur entry,
      mapLookup cfg.collection itype = some (some entry) ∧
      mapLookup st.current_item itype = some cur ∧
      ((intEqOptInt (cur + 1) entry.buffer = false ∧
        st'.current_item = mapSet st.current_item itype (cur + 1)) ∨
       st'.current_item = mapSet st.current_item itype 0) := by
  rcases hv0 : mapLookup cfg.collection tname with _ | v0
  · simp only [process_item, hv0] at h
    exact Except.noConfusion h
  · simp only [process_item, hv0] at h
    generalize (if entryFalsy v0 = true then "default" else tname) = ity at h
    rcases hv1 : mapLookup cfg.collection ity with _ | v1
    · simp only [hv1] at h
      exact Except.noConfusion h
    · simp only [hv1] at h
      rcases hbs : mapLookup st.buffer_settings ity with _ | bs
      · simp only [hbs] at h
        exact Except.noConfusion h
      · simp only [hbs] at h
        by_cases hbz : bs ≠ 0
        · rw [if_pos hbz] at h
          rcases hcur : mapLookup st.current_item ity with _ | cur
          · simp only [hcur] at h
            exact Except.noConfusion h
          · simp only [hcur] at h
            rcases hcoll : entryGet v1 with e | entry
            · simp only [hcoll] at h
              exact Except.noConfusion h
            · simp only [hcoll] at h
              rcases hbufl : mapLookup st.item_buffer ity with _ | buf
              · simp only [hbufl] at h
                exact Except.noConfusion h
              · simp only [hbufl] at h
                by_cases hflc : intEqOptInt (cur + 1) entry.buffer = true
                · rw [if_pos hflc] at h
                  have hst := (insert_item_state_eq _ _ _ _ _ _ _ _ h).1
                  refine ⟨ity, cur, entry, ?_, hcur, Or.inr ?_⟩
                  · rw [hv1, entryGet_ok v1 entry hcoll]
                  · rw [hst]
                    exact mapSet_mapSet _ _ _ _
                · rw [if_neg hflc] at h
                  simp only [Except.ok.injEq, Prod.mk.injEq] at h
                  obtain ⟨hst, -, -⟩ := h
                  refine ⟨ity, cur, entry, ?_, hcur, Or.inl ⟨?_, ?_⟩⟩
                  · rw [hv1, entryGet_ok v1 entry hcoll]
                  · simpa using hflc
                  · rw [← hst]
        · rw [if_neg hbz] at h
          exact (insert_item_single_err _ _ _ _ _ _ h).elim

/-- C8: the invariant `countInv` — every type with a positive buffer
threshold `N` has its accumulation count in `0 .. N-1` — is preserved by
every completed `process_item` call (it holds initially because
`open_spider` zeroes every count). -/
theorem C8_count_invariant (cfg : Config) (st : PipeState) (oracle : Bool)
    (ts tname : String) (item : Item) (st' : PipeState) (evs : List Event) (r : PyItem)
    (hinv : countInv cfg st)
    (h : process_item cfg st oracle ts tname item = Except.ok (st', evs, r)) :
    countInv cfg st' := by
  obtain ⟨itype, cur, entry, hLook, hCur, hCase⟩ :=
    process_item_current_shape cfg st oracle ts tname item st' evs r h
  intro t entry' N hT hB hN
  by_cases ht : itype = t
  · subst ht
    have hee : entry' = entry := by
      rw [hLook] at hT
      injection hT with h1
      injection h1 with h2
      exact h2.symm
    obtain ⟨c, hc, hc0, hcN⟩ := hinv itype entry' N hT hB hN
    have hcc : c = cur := by
      rw [hCur] at hc
      exact (Option.some.inj hc).symm
    subst hcc
    subst hee
    rcases hCase with ⟨hne, hset⟩ | hset
    · refine ⟨c + 1, ?_, by omega, ?_⟩
      · rw [hset, mapLookup_mapSet_self]
      · rw [hB] at hne
        simp only [intEqOptInt, decide_eq_false_iff_not] at hne
        omega
    · refine ⟨0, ?_, le_refl 0, hN⟩
      rw [hset, mapLookup_mapSet_self]
  · obtain ⟨c, hc, hc0, hcN⟩ := hinv t entry' N hT hB hN
    rcases hCase with ⟨-, hset⟩ | hset <;>
      exact ⟨c, by rw [hset, mapLookup_mapSet_ne _ _ _ _ ht, hc], hc0, hcN⟩

/-- Witness for C8: the invariant holds for the freshly opened
threshold-1 state and is carried through a flushing call. -/
theorem C8_witness : countInv cfg1 st1Flush :=
  C8_count_invariant cfg1 st1 false "t0" "default" itemA st1Flush
    [Event.insertCall "default" [itemA]] (PyItem.batch [itemA])
    (by
      intro t entry N hT hB hN
      simp only [cfg1, defaultConfig, mapLookup] at hT
      split at hT
      next hd =>
        obtain rfl : t = "default" := hd.symm
        obtain rfl : entry = entryBuf1 := by
          simpa using hT.symm
        exact ⟨0, rfl, le_refl 0, hN⟩
      · exact Option.noConfusion hT)
    rfl

end ScrapyMongo
